import Mathlib

/-!
Verification development for the `clipper` background job execution engine
(`backend/app`): the job store (`db/repo.py`), the worker pool and progress
channel (`services/job_queue.py`), the caller-facing cancellation endpoint
(`api/jobs.py`), and the adaptive retry ladder of the image generator
(`services/image_gen.py`).

The embedding is shallow: SQLite rows become a Lean record type, the store
becomes a function from job ids to optional rows, and the Python methods
become pure state-passing functions.  The worker's control flow is modelled
as a small-step transition system whose atomic steps are the synchronous
segments of `JobQueue._run_job` between `await` points (the asyncio event
loop cannot interleave inside such a segment).  Timestamps are abstracted to
a `Nat` supplied at each mutation.  Python's `int(x * 0.8)` and
`int(x * 0.7)` on nonnegative ints are modelled by exact rational floors
(`x * 4 / 5`, `x * 7 / 10`), which agree with CPython float semantics on the
image-size domain in use.
-/

namespace Clipper

/-- Job statuses stored in the `status` column (`db/models.py` JobStatus). -/
inductive JobStatus where
  | queued
  | running
  | done
  | error
  | cancelled
deriving DecidableEq, Repr

/-- The terminal statuses, as enumerated in `api/jobs.py` line 27:
`{"done", "error", "cancelled"}`. -/
def isTerminal : JobStatus → Bool
  | .done => true
  | .error => true
  | .cancelled => true
  | _ => false

/-- One row of the `jobs` table as surfaced by `Repository._to_job`.
`params` and `result` payloads are opaque to the queue machinery and are
modelled as strings (the serialized JSON); `result`/`error_text` are
nullable columns. -/
structure JobRow where
  id : String
  project_id : String
  type : String
  status : JobStatus
  progress_pct : Int
  stage : String
  params : String
  result : Option String
  error_text : Option String
  created_at : Nat
  updated_at : Nat
deriving DecidableEq, Repr

/-- The job store: the `jobs` table keyed by id. -/
def JobStore : Type := String → Option JobRow

/-- Embeds `Repository.get_job`: `SELECT * FROM jobs WHERE id = ?`. -/
def get_job (store : JobStore) (job_id : String) : Option JobRow :=
  store job_id

/-- The clamp applied to a specified `progress_pct` in `Repository.update_job`
line 226: `max(0, min(100, int(progress_pct)))`. -/
def clampPct (p : Int) : Int :=
  max 0 (min 100 p)

/-- The field-wise effect of `Repository.update_job`'s UPDATE statement on an
existing row: each column is assigned exactly when the corresponding keyword
argument is not `None`, and `updated_at` is always assigned. -/
def applyUpdate (row : JobRow) (now : Nat) (status : Option JobStatus)
    (progress_pct : Option Int) (stage : Option String)
    (result : Option String) (error_text : Option String) : JobRow :=
  { row with
    status := status.getD row.status,
    progress_pct := (progress_pct.map clampPct).getD row.progress_pct,
    stage := stage.getD row.stage,
    result := match result with
      | some r => some r
      | none => row.result,
    error_text := match error_text with
      | some e => some e
      | none => row.error_text,
    updated_at := now }

/-- Embeds `Repository.update_job` (repo.py lines 201-249): re-read the row under the
lock; if absent return `None` without writing; otherwise assemble the UPDATE
from the non-`None` keyword arguments, run it, and return the re-fetched row.
The whole body holds `self._lock`, so it is one atomic store transformation. -/
def update_job (store : JobStore) (job_id : String) (now : Nat)
    (status : Option JobStatus) (progress_pct : Option Int)
    (stage : Option String) (result : Option String)
    (error_text : Option String) : Option JobRow × JobStore :=
  match store job_id with
  | none => (none, store)
  | some row =>
    let row' := applyUpdate row now status progress_pct stage result error_text
    (some row', fun k => if k = job_id then some row' else store k)

/-- Embeds `Repository.cancel_job` (repo.py lines 251-252):
`update_job(job_id, status="cancelled", stage="cancelled")`. -/
def cancel_job (store : JobStore) (job_id : String) (now : Nat) :
    Option JobRow × JobStore :=
  update_job store job_id now (some .cancelled) none (some "cancelled") none none

/-- The `POST /jobs/{id}/cancel` endpoint (`api/jobs.py` lines 21-30):
`none` models the 404; otherwise the returned triple is the job payload of
the response, the `cancelled` flag, and the resulting store. -/
def api_cancel_job (store : JobStore) (job_id : String) (now : Nat) :
    Option (Option JobRow × Bool × JobStore) :=
  match get_job store job_id with
  | none => none
  | some job =>
    if isTerminal job.status then
      some (some job, false, store)
    else
      let r := cancel_job store job_id now
      some (r.1, true, r.2)

/-- The per-job progress closure built in `JobQueue._run_job`
(job_queue.py lines 81-87).  `Except.error` models the raised
`RuntimeError("Job was cancelled.")`; `Except.ok` carries the store after the
call returns.  The body is synchronous (no `await`), hence atomic. -/
def progressReport (store : JobStore) (job_id : String) (now : Nat)
    (stage : String) (pct : Int) : Except String JobStore :=
  match get_job store job_id with
  | none => .ok store
  | some current =>
    if current.status = .cancelled then
      .error "Job was cancelled."
    else
      .ok (update_job store job_id now none (some pct) (some stage) none none).2

/-! ## The worker as a transition system

`JobQueue._run_job` is an async function; the asyncio loop can interleave
other tasks (in particular the cancellation endpoint) only at `await`
points.  The synchronous segments are: the pickup segment (get, cancelled
check, handler lookup, and the first update), each body of the `progress`
closure, and the finalization update after the handler returns or raises.
We track a single job together with a `Phase` recording where the worker is
relative to it. -/

/-- Where the worker stands with respect to the job. -/
inductive Phase where
  /-- Enqueued, not yet dequeued by a worker. -/
  | pending
  /-- Dequeued while already cancelled: worker returned without mutating. -/
  | skipped
  /-- The handler is running (between the `running` update and the final one). -/
  | active
  /-- The worker wrote the final update and returned. -/
  | finished
deriving DecidableEq, Repr

/-- A single job's record together with the worker phase. -/
structure Sys where
  job : JobRow
  phase : Phase
deriving DecidableEq, Repr

/-- The error text written for an unregistered type (job_queue.py line 69). -/
def noHandlerText (t : String) : String :=
  "No handler registered for '" ++ t ++ "'."

/-- One atomic step of the system around a single job.  `hasHandler` says
whether `self._handlers` contains the job's type (the registry is populated
once at startup and read-only afterwards). -/
inductive Step (hasHandler : Bool) : Sys → Sys → Prop
  /-- The `api/jobs.py` cancel endpoint on a non-terminal job:
  `repo.cancel_job` sets status and stage to cancelled.  (On a terminal job
  the endpoint performs no store mutation at all, so it is not a step.) -/
  | apiCancel (s : Sys) (now : Nat) :
      isTerminal s.job.status = false →
      Step hasHandler s
        ⟨applyUpdate s.job now (some .cancelled) none (some "cancelled") none none,
         s.phase⟩
  /-- Pickup of a job already cancelled (job_queue.py lines 60-61): the worker
  returns without touching the store. -/
  | pickupSkip (s : Sys) :
      s.phase = .pending →
      s.job.status = .cancelled →
      Step hasHandler s ⟨s.job, .skipped⟩
  /-- Pickup with no registered handler (lines 62-71): one update to
  status=error, stage="error", progress 100, error text naming the type. -/
  | pickupNoHandler (s : Sys) (now : Nat) :
      hasHandler = false →
      s.phase = .pending →
      s.job.status ≠ .cancelled →
      Step hasHandler s
        ⟨applyUpdate s.job now (some .error) (some 100) (some "error") none
          (some (noHandlerText s.job.type)), .finished⟩
  /-- Pickup with a handler (lines 73-79): status=running, a worker liveness
  stage, progress 2, error text cleared to the empty string. -/
  | pickupRun (s : Sys) (now w : Nat) :
      hasHandler = true →
      s.phase = .pending →
      s.job.status ≠ .cancelled →
      Step hasHandler s
        ⟨applyUpdate s.job now (some .running) (some 2)
          (some ("worker_" ++ toString w ++ "_starting")) none (some ""), .active⟩
  /-- A `progress(stage, pct)` call that found the job not cancelled
  (lines 81-87): persists stage and pct only.  (A call that finds the job
  cancelled raises without writing, so it changes no state; the handler's
  subsequent propagation of the abort is a `finishErr`.) -/
  | progressOk (s : Sys) (now : Nat) (stage : String) (pct : Int) :
      s.phase = .active →
      s.job.status ≠ .cancelled →
      Step hasHandler s
        ⟨applyUpdate s.job now none (some pct) (some stage) none none, .active⟩
  /-- The handler returned a result: final update to done (lines 90-98),
  unconditional on the current status. -/
  | finishOk (s : Sys) (now : Nat) (res : String) :
      s.phase = .active →
      Step hasHandler s
        ⟨applyUpdate s.job now (some .done) (some 100) (some "completed")
          (some res) (some ""), .finished⟩
  /-- The handler raised (lines 99-106): final update to error with the
  exception text, unconditional on the current status. -/
  | finishErr (s : Sys) (now : Nat) (msg : String) :
      s.phase = .active →
      Step hasHandler s
        ⟨applyUpdate s.job now (some .error) (some 100) (some "failed") none
          (some msg), .finished⟩

/-- Embeds `Repository.create_job` (repo.py lines 143-156): a fresh queued row. -/
def initJob (id pid ty params : String) (t : Nat) : JobRow :=
  { id := id, project_id := pid, type := ty, status := .queued,
    progress_pct := 0, stage := "queued", params := params, result := none,
    error_text := none, created_at := t, updated_at := t }

/-- The system state right after create + enqueue. -/
def initSys (id pid ty params : String) (t : Nat) : Sys :=
  ⟨initJob id pid ty params t, .pending⟩

/-- Reachability along atomic steps. -/
def Reachable (hasHandler : Bool) (s₀ s : Sys) : Prop :=
  Relation.ReflTransGen (Step hasHandler) s₀ s

/-! ## The retry ladder of `services/image_gen.py` -/

/-- A string as its list of Unicode codepoints. -/
def strCodes (s : String) : List Nat :=
  s.toList.map Char.toNat

/-- Python's `needle in haystack` tested at one start position. -/
def subAt : List Nat → List Nat → Bool
  | [], _ => true
  | _ :: _, [] => false
  | a :: as, b :: bs => a == b && subAt as bs

/-- Membership of `needle in haystack` over all start positions. -/
def containsSub (needle : List Nat) : List Nat → Bool
  | [] => subAt needle []
  | hay@(_ :: rest) => subAt needle hay || containsSub needle rest

/-- Python's `str.lower()` on one codepoint, restricted to ASCII — the only
case the matched phrases exercise. -/
def lowerCode (n : Nat) : Nat :=
  if 65 ≤ n ∧ n ≤ 90 then n + 32 else n

/-- Embeds `ImageGenerator._is_oom_error` (image_gen.py lines 343-350): lowercase the
message and test membership of the three memory-exhaustion phrases. -/
def is_oom_error (message : String) : Bool :=
  let lowered := (strCodes message).map lowerCode
  containsSub (strCodes "out of memory") lowered
    || containsSub (strCodes "cuda out of memory") lowered
    || containsSub (strCodes "cublas_status_alloc_failed") lowered

/-- Embeds `ImageGenerator._round_to_64` (lines 361-363):
`max(64, (value // 64) * 64)`. -/
def round_to_64 (value : Nat) : Nat :=
  max 64 (value / 64 * 64)

/-- Embeds `ImageGenerator.attempt_plan` (lines 50-59).  `int(width * 0.8)` and
`int(steps * 0.7)` are modelled as the exact floors `width * 4 / 5` and
`steps * 7 / 10`. -/
def attempt_plan (width height steps : Nat) : List (Nat × Nat × Nat) :=
  let lower_width := round_to_64 (max 512 (width * 4 / 5))
  let lower_height := round_to_64 (max 512 (height * 4 / 5))
  let reduced_steps := max 1 (steps * 7 / 10)
  [(width, height, steps),
   (lower_width, lower_height, steps),
   (lower_width, lower_height, reduced_steps)]

/-- Outcome of one opaque pipeline invocation at given width/height/steps:
either an image (whose own dimensions the metadata reports) or the text of
the raised exception. -/
inductive AttemptResult where
  | ok (imgWidth imgHeight : Nat)
  | err (msg : String)
deriving DecidableEq, Repr

/-- The metadata fields of a successful `_try_generate_with_diffusers` return
that the ladder itself determines (lines 196-213). -/
structure LadderMeta where
  width : Nat
  height : Nat
  steps : Nat
  retry_count : Nat
  oom_recovered : Bool
deriving DecidableEq, Repr

/-- The `for retry_idx, ... in enumerate(attempts)` loop of
`_try_generate_with_diffusers` (lines 181-223), with the pipeline call
abstracted as `attempt`.  On failure: descend exactly when the device is
"cuda" and the message matches a memory-exhaustion phrase and a rung
remains (`retry_idx < len(attempts) - 1`); otherwise return the message.
The `return None, "generation_failed"` after the loop is the empty-plan
case. -/
def run_attempts (device : String) (attempt : Nat → Nat → Nat → AttemptResult) :
    List (Nat × Nat × Nat) → Nat → Bool → Except String LadderMeta
  | [], _, _ => .error "generation_failed"
  | (w, h, s) :: rest, retryIdx, sawOom =>
    match attempt w h s with
    | .ok iw ih => .ok ⟨iw, ih, s, retryIdx, sawOom && decide (0 < retryIdx)⟩
    | .err msg =>
      if device == "cuda" && is_oom_error msg then
        if rest.isEmpty then .error msg
        else run_attempts device attempt rest (retryIdx + 1) true
      else .error msg

/-- The ladder as invoked for a requested envelope: build the plan and run
the rungs from index 0 with no memory-exhaustion yet observed. -/
def try_generate (device : String) (attempt : Nat → Nat → Nat → AttemptResult)
    (width height steps : Nat) : Except String LadderMeta :=
  run_attempts device attempt (attempt_plan width height steps) 0 false

/-! ## Invariants of the worker transition system -/

/-- Which statuses can accompany each worker phase. -/
def StatusOk (s : Sys) : Prop :=
  (s.phase = .pending → s.job.status = .queued ∨ s.job.status = .cancelled) ∧
  (s.phase = .skipped → s.job.status = .cancelled) ∧
  (s.phase = .active → s.job.status = .running ∨ s.job.status = .cancelled) ∧
  (s.phase = .finished → s.job.status = .done ∨ s.job.status = .error)

theorem isTerminal_false_iff (st : JobStatus) :
    isTerminal st = false ↔ st = .queued ∨ st = .running := by
  cases st <;> simp [isTerminal]

theorem statusOk_step {hh : Bool} {s s' : Sys} (hok : StatusOk s)
    (hstep : Step hh s s') : StatusOk s' := by
  obtain ⟨hp, hk, ha, hf⟩ := hok
  cases hstep with
  | apiCancel now hterm =>
    rcases (isTerminal_false_iff s.job.status).mp hterm with hq | hr <;>
      refine ⟨fun _ => Or.inr ?_, fun hph => ?_, fun _ => Or.inr ?_, fun hph => ?_⟩ <;>
      simp_all [applyUpdate]
  | pickupSkip hph2 hst2 =>
    exact ⟨by simp, fun _ => hst2, by simp, by simp⟩
  | pickupNoHandler now hhh hph2 hst2 =>
    exact ⟨by simp, by simp, by simp, fun _ => Or.inr (by simp [applyUpdate])⟩
  | pickupRun now w hhh hph2 hst2 =>
    exact ⟨by simp, by simp, fun _ => Or.inl (by simp [applyUpdate]), by simp⟩
  | progressOk now stage pct hph2 hst2 =>
    refine ⟨by simp, by simp, fun _ => ?_, by simp⟩
    rcases ha hph2 with hr | hc
    · exact Or.inl (by simp [applyUpdate, hr])
    · exact absurd hc hst2
  | finishOk now res hph2 =>
    exact ⟨by simp, by simp, by simp, fun _ => Or.inl (by simp [applyUpdate])⟩
  | finishErr now msg hph2 =>
    exact ⟨by simp, by simp, by simp, fun _ => Or.inr (by simp [applyUpdate])⟩

theorem statusOk_init (id pid ty params : String) (t : Nat) :
    StatusOk (initSys id pid ty params t) := by
  refine ⟨fun _ => Or.inl rfl, ?_, ?_, ?_⟩ <;> simp [initSys]

theorem statusOk_of_reachable {hh : Bool} {s₀ s : Sys} (h0 : StatusOk s₀)
    (hr : Reachable hh s₀ s) : StatusOk s := by
  induction hr with
  | refl => exact h0
  | tail _ hstep ih => exact statusOk_step ih hstep

/-- A job that is cancelled before pickup is frozen: one step. -/
theorem cancelled_frozen_step {hh : Bool} {s s' : Sys}
    (hph : s.phase = .pending ∨ s.phase = .skipped)
    (hst : s.job.status = .cancelled) (hstep : Step hh s s') :
    s'.job = s.job ∧ (s'.phase = .pending ∨ s'.phase = .skipped) := by
  cases hstep with
  | apiCancel now hterm => rw [hst] at hterm; simp [isTerminal] at hterm
  | pickupSkip hph2 hst2 => exact ⟨rfl, Or.inr rfl⟩
  | pickupNoHandler now hhh hph' hst' => exact absurd hst hst'
  | pickupRun now w hhh hph' hst' => exact absurd hst hst'
  | progressOk now stage pct hph' hst' =>
    rcases hph with h | h <;> rw [hph'] at h <;> cases h
  | finishOk now res hph' =>
    rcases hph with h | h <;> rw [hph'] at h <;> cases h
  | finishErr now msg hph' =>
    rcases hph with h | h <;> rw [hph'] at h <;> cases h

/-- A job that is cancelled before pickup is frozen: any number of steps. -/
theorem cancelled_frozen {hh : Bool} {s s' : Sys}
    (hph : s.phase = .pending ∨ s.phase = .skipped)
    (hst : s.job.status = .cancelled)
    (hr : Relation.ReflTransGen (Step hh) s s') : s'.job = s.job := by
  have main : s'.job = s.job ∧ (s'.phase = .pending ∨ s'.phase = .skipped) := by
    induction hr with
    | refl => exact ⟨rfl, hph⟩
    | tail _ hstep ih =>
      obtain ⟨hjob, hph'⟩ := ih
      have := cancelled_frozen_step hph' (hjob ▸ hst) hstep
      exact ⟨this.1.trans hjob, this.2⟩
  exact main.1

/-! ## Concrete sample stores used by witnesses -/

def sampleQueued : JobRow := initJob "a" "p" "copy_generate" "x" 0

def sampleCancelled : JobRow := { sampleQueued with status := JobStatus.cancelled }

def sampleDone : JobRow := { sampleQueued with status := JobStatus.done }

def storeQueued : JobStore := fun k => if k = "a" then some sampleQueued else none

def storeCancelled : JobStore := fun k => if k = "a" then some sampleCancelled else none

def storeDone : JobStore := fun k => if k = "a" then some sampleDone else none

/-! ## Claim theorems -/

/-- C2: a `progress(stage, pct)` call on an existing job re-reads the status;
if it is cancelled it raises the abort (`RuntimeError("Job was cancelled.")`)
and persists nothing; otherwise it persists the stage and the clamped
progress (all other fields unchanged, timestamp refreshed) and does not
raise.  The two branches are exhaustive and exclusive, so the abort is
raised exactly when the re-read status is cancelled. -/
theorem progress_channel_contract (store : JobStore) (job_id : String)
    (now : Nat) (stage : String) (pct : Int) (j : JobRow)
    (hj : store job_id = some j) :
    (j.status = .cancelled →
      progressReport store job_id now stage pct = .error "Job was cancelled.") ∧
    (j.status ≠ .cancelled →
      ∃ st', progressReport store job_id now stage pct = .ok st' ∧
        st' job_id = some { j with stage := stage,
                                   progress_pct := clampPct pct,
                                   updated_at := now } ∧
        ∀ k, k ≠ job_id → st' k = store k) := by
  constructor
  · intro hc
    simp [progressReport, get_job, hj, hc]
  · intro hc
    refine ⟨(update_job store job_id now none (some pct) (some stage) none none).2,
      ?_, ?_, ?_⟩
    · simp [progressReport, get_job, hj, hc]
    · simp [update_job, hj, applyUpdate]
    · intro k hk
      simp [update_job, hj, hk]

/-- C2 witness: both branches of the contract instantiated on concrete
stores, one holding a cancelled job, one a queued job. -/
theorem progress_channel_contract_witness :
    (progressReport storeCancelled "a" 7 "rendering" 50
      = .error "Job was cancelled.") ∧
    (∃ st', progressReport storeQueued "a" 7 "rendering" 150 = .ok st' ∧
      st' "a" = some { sampleQueued with stage := "rendering",
                                         progress_pct := clampPct 150,
                                         updated_at := 7 } ∧
      ∀ k, k ≠ "a" → st' k = storeQueued k) :=
  ⟨(progress_channel_contract storeCancelled "a" 7 "rendering" 50 sampleCancelled
      rfl).1 rfl,
   (progress_channel_contract storeQueued "a" 7 "rendering" 150 sampleQueued
      rfl).2 (by decide)⟩

/-- C3: any integer progress value supplied to a job update is stored as its
clamp into [0,100]: values above 100 store 100, values below 0 store 0,
in-range values store unchanged, and the stored value is never outside
[0,100]. -/
theorem update_job_clamps_progress (store : JobStore) (job_id : String)
    (now : Nat) (p : Int) (status : Option JobStatus) (stage : Option String)
    (result : Option String) (error_text : Option String) (j : JobRow)
    (hj : store job_id = some j) :
    ∃ row' st',
      update_job store job_id now status (some p) stage result error_text
        = (some row', st') ∧
      row'.progress_pct = clampPct p ∧
      0 ≤ row'.progress_pct ∧ row'.progress_pct ≤ 100 ∧
      (100 < p → row'.progress_pct = 100) ∧
      (p < 0 → row'.progress_pct = 0) ∧
      (0 ≤ p → p ≤ 100 → row'.progress_pct = p) := by
  refine ⟨applyUpdate j now status (some p) stage result error_text,
    fun k => if k = job_id
      then some (applyUpdate j now status (some p) stage result error_text)
      else store k,
    by simp [update_job, hj], ?_, ?_, ?_, ?_, ?_, ?_⟩ <;>
    simp [applyUpdate, clampPct] <;> omega

/-- C3 witness: the clamp at 150, −5 and 42 on a concrete store. -/
theorem update_job_clamps_progress_witness :
    (∃ row' st',
      update_job storeQueued "a" 7 none (some 150) none none none
        = (some row', st') ∧
      row'.progress_pct = clampPct 150 ∧
      0 ≤ row'.progress_pct ∧ row'.progress_pct ≤ 100 ∧
      (100 < (150 : Int) → row'.progress_pct = 100) ∧
      ((150 : Int) < 0 → row'.progress_pct = 0) ∧
      (0 ≤ (150 : Int) → (150 : Int) ≤ 100 → row'.progress_pct = 150)) ∧
    (∃ row' st',
      update_job storeQueued "a" 7 none (some (-5)) none none none
        = (some row', st') ∧
      row'.progress_pct = clampPct (-5) ∧
      0 ≤ row'.progress_pct ∧ row'.progress_pct ≤ 100 ∧
      (100 < (-5 : Int) → row'.progress_pct = 100) ∧
      ((-5 : Int) < 0 → row'.progress_pct = 0) ∧
      (0 ≤ (-5 : Int) → (-5 : Int) ≤ 100 → row'.progress_pct = -5)) ∧
    (∃ row' st',
      update_job storeQueued "a" 7 none (some 42) none none none
        = (some row', st') ∧
      row'.progress_pct = clampPct 42 ∧
      0 ≤ row'.progress_pct ∧ row'.progress_pct ≤ 100 ∧
      (100 < (42 : Int) → row'.progress_pct = 100) ∧
      ((42 : Int) < 0 → row'.progress_pct = 0) ∧
      (0 ≤ (42 : Int) → (42 : Int) ≤ 100 → row'.progress_pct = 42)) :=
  ⟨update_job_clamps_progress storeQueued "a" 7 150 none none none none
      sampleQueued rfl,
   update_job_clamps_progress storeQueued "a" 7 (-5) none none none none
      sampleQueued rfl,
   update_job_clamps_progress storeQueued "a" 7 42 none none none none
      sampleQueued rfl⟩

/-- C5: the retry plan always has exactly three rungs: the request unchanged;
the request with width and height scaled by 0.8, floor-clamped to a minimum
of 512 and aligned down to a multiple of 64, at the same step count; and
that reduced envelope with the step count scaled by 0.7 and floor-clamped
to at least 1.  At (1024, 1024, 30) this yields rungs (768, 768, 30) and
(768, 768, 21). -/
theorem attempt_plan_three_rungs (w h s : Nat) :
    (attempt_plan w h s).length = 3 ∧
    attempt_plan w h s =
      [(w, h, s),
       (max 512 (w * 4 / 5) / 64 * 64, max 512 (h * 4 / 5) / 64 * 64, s),
       (max 512 (w * 4 / 5) / 64 * 64, max 512 (h * 4 / 5) / 64 * 64,
        max 1 (s * 7 / 10))] ∧
    attempt_plan 1024 1024 30
      = [(1024, 1024, 30), (768, 768, 30), (768, 768, 21)] := by
  have key : ∀ v : Nat, round_to_64 (max 512 v) = max 512 v / 64 * 64 := by
    intro v
    unfold round_to_64
    omega
  refine ⟨rfl, ?_, by decide⟩
  simp [attempt_plan, key]

/-- C8: the cancel endpoint on a job with a terminal status is a no-op — the
store is returned untouched, the unmodified record is echoed and the
response carries `cancelled = false`; on a non-terminal status it writes
status=cancelled (and stage "cancelled"), leaves every other field
unchanged, and reports `cancelled = true`. -/
theorem cancel_endpoint_contract (store : JobStore) (job_id : String)
    (now : Nat) (j : JobRow) (hj : store job_id = some j) :
    (isTerminal j.status = true →
      api_cancel_job store job_id now = some (some j, false, store)) ∧
    (isTerminal j.status = false →
      ∃ u, api_cancel_job store job_id now
          = some (some u, true, fun k => if k = job_id then some u else store k) ∧
        u.status = .cancelled ∧ u.stage = "cancelled" ∧
        u.id = j.id ∧ u.project_id = j.project_id ∧ u.type = j.type ∧
        u.progress_pct = j.progress_pct ∧ u.params = j.params ∧
        u.result = j.result ∧ u.error_text = j.error_text ∧
        u.created_at = j.created_at) := by
  constructor
  · intro ht
    simp [api_cancel_job, get_job, hj, ht]
  · intro ht
    refine ⟨applyUpdate j now (some .cancelled) none (some "cancelled") none none,
      ?_, ?_, ?_, ?_, ?_, ?_, ?_, ?_, ?_, ?_, ?_⟩ <;>
      simp [api_cancel_job, get_job, hj, ht, cancel_job, update_job, applyUpdate]

/-- C8 witness: a duplicate cancel on a done job reports not-cancelled and
returns the store unchanged; a cancel on a queued job reports cancelled. -/
theorem cancel_endpoint_contract_witness :
    (api_cancel_job storeDone "a" 9 = some (some sampleDone, false, storeDone)) ∧
    (∃ u, api_cancel_job storeQueued "a" 9
        = some (some u, true, fun k => if k = "a" then some u else storeQueued k) ∧
      u.status = .cancelled ∧ u.stage = "cancelled" ∧
      u.id = sampleQueued.id ∧ u.project_id = sampleQueued.project_id ∧
      u.type = sampleQueued.type ∧ u.progress_pct = sampleQueued.progress_pct ∧
      u.params = sampleQueued.params ∧ u.result = sampleQueued.result ∧
      u.error_text = sampleQueued.error_text ∧
      u.created_at = sampleQueued.created_at) :=
  ⟨(cancel_endpoint_contract storeDone "a" 9 sampleDone rfl).1 (by decide),
   (cancel_endpoint_contract storeQueued "a" 9 sampleQueued rfl).2 (by decide)⟩

/-- C9 counterexample: specifying `progress_pct = 150` on an existing job
stores 100, not the supplied value, so a specified field does not always
take the new value. -/
theorem update_job_not_identity_on_progress :
    ((update_job storeQueued "a" 5 none (some 150) none none none).1.map
      JobRow.progress_pct) = some 100 ∧ some (100 : Int) ≠ some (150 : Int) := by
  exact ⟨rfl, by decide⟩

/-- C9 (amended): `update_job` is a single store transformation; on an absent
id it returns `none` and leaves the store untouched; on an existing id it
replaces exactly that record, leaving every unspecified field unchanged,
refreshing `updated_at`, giving each specified field its supplied value —
except `progress_pct`, which receives the supplied value clamped into
[0,100] — and leaving every other id's record unchanged. -/
theorem update_job_partial_update (store : JobStore) (job_id : String)
    (now : Nat) (status : Option JobStatus) (progress_pct : Option Int)
    (stage : Option String) (result : Option String)
    (error_text : Option String) :
    (store job_id = none →
      update_job store job_id now status progress_pct stage result error_text
        = (none, store)) ∧
    (∀ j, store job_id = some j →
      ∃ row',
        update_job store job_id now status progress_pct stage result error_text
          = (some row', fun k => if k = job_id then some row' else store k) ∧
        row'.id = j.id ∧ row'.project_id = j.project_id ∧ row'.type = j.type ∧
        row'.params = j.params ∧ row'.created_at = j.created_at ∧
        row'.updated_at = now ∧
        (status = none → row'.status = j.status) ∧
        (∀ v, status = some v → row'.status = v) ∧
        (progress_pct = none → row'.progress_pct = j.progress_pct) ∧
        (∀ v, progress_pct = some v → row'.progress_pct = clampPct v) ∧
        (stage = none → row'.stage = j.stage) ∧
        (∀ v, stage = some v → row'.stage = v) ∧
        (result = none → row'.result = j.result) ∧
        (∀ v, result = some v → row'.result = some v) ∧
        (error_text = none → row'.error_text = j.error_text) ∧
        (∀ v, error_text = some v → row'.error_text = some v)) := by
  constructor
  · intro hn
    simp [update_job, hn]
  · intro j hj
    refine ⟨applyUpdate j now status progress_pct stage result error_text,
      by simp [update_job, hj], ?_⟩
    cases status <;> cases progress_pct <;> cases stage <;> cases result <;>
      cases error_text <;> simp [applyUpdate]

/-- C9 witness: the update on an absent id, and a partial update of stage
only on an existing id, instantiated on a concrete store. -/
theorem update_job_partial_update_witness :
    (update_job storeQueued "missing" 5 none none (some "s") none none
      = (none, storeQueued)) ∧
    (∃ row',
      update_job storeQueued "a" 5 none none (some "s") none none
        = (some row', fun k => if k = "a" then some row' else storeQueued k) ∧
      row'.id = sampleQueued.id ∧ row'.project_id = sampleQueued.project_id ∧
      row'.type = sampleQueued.type ∧ row'.params = sampleQueued.params ∧
      row'.created_at = sampleQueued.created_at ∧ row'.updated_at = 5 ∧
      ((none : Option JobStatus) = none → row'.status = sampleQueued.status) ∧
      (∀ v, (none : Option JobStatus) = some v → row'.status = v) ∧
      ((none : Option Int) = none →
        row'.progress_pct = sampleQueued.progress_pct) ∧
      (∀ v, (none : Option Int) = some v → row'.progress_pct = clampPct v) ∧
      (some "s" = (none : Option String) → row'.stage = sampleQueued.stage) ∧
      (∀ v, some "s" = some v → row'.stage = v) ∧
      ((none : Option String) = none → row'.result = sampleQueued.result) ∧
      (∀ v, (none : Option String) = some v → row'.result = some v) ∧
      ((none : Option String) = none →
        row'.error_text = sampleQueued.error_text) ∧
      (∀ v, (none : Option String) = some v → row'.error_text = some v)) :=
  ⟨(update_job_partial_update storeQueued "missing" 5 none none (some "s") none
      none).1 rfl,
   (update_job_partial_update storeQueued "a" 5 none none (some "s") none
      none).2 sampleQueued rfl⟩

/-! Concrete trace for C1: pickup, then cancellation mid-run, then the
handler returns and the worker finalizes. -/

def traceSys₀ : Sys := initSys "job-1" "proj-1" "image_generate" "x" 0

def traceSys₁ : Sys :=
  ⟨applyUpdate traceSys₀.job 1 (some .running) (some 2)
    (some ("worker_" ++ toString 0 ++ "_starting")) none (some ""), .active⟩

def traceSys₂ : Sys :=
  ⟨applyUpdate traceSys₁.job 2 (some .cancelled) none (some "cancelled")
    none none, .active⟩

def traceSys₃ : Sys :=
  ⟨applyUpdate traceSys₂.job 3 (some .done) (some 100) (some "completed")
    (some "r") (some ""), .finished⟩

/-- C1 counterexample: a reachable trace in which the job's stored status is
the terminal value cancelled (cancellation landed while the handler was
running) and the worker's finalization step then changes it to done — the
cancelled terminal state is overwritten. -/
theorem cancelled_overwritten_by_done :
    Reachable true traceSys₀ traceSys₂ ∧ Step true traceSys₂ traceSys₃ ∧
    isTerminal traceSys₂.job.status = true ∧
    traceSys₂.job.status = .cancelled ∧ traceSys₃.job.status = .done := by
  refine ⟨?_, ?_, by decide, by decide, by decide⟩
  · exact Relation.ReflTransGen.tail
      (Relation.ReflTransGen.tail Relation.ReflTransGen.refl
        (Step.pickupRun traceSys₀ 1 0 rfl rfl (by decide)))
      (Step.apiCancel traceSys₁ 2 (by decide))
  · exact Step.finishOk traceSys₂ 3 "r" rfl

/-- C1 (amended): a stored status of done or error is never changed again by
any operation; a stored status of cancelled is never changed by a
cancellation request, a pickup, or a progress report; the only operation
that leaves a terminal state is the worker's finalization after the handler
finishes, which overwrites a mid-run cancellation with done (handler
returned) or error (handler raised, including on the propagated abort
signal). -/
theorem terminal_stable_except_midrun_finalize (hh : Bool)
    (id pid ty params : String) (t : Nat) (s s' : Sys)
    (hr : Reachable hh (initSys id pid ty params t) s)
    (hstep : Step hh s s')
    (hterm : isTerminal s.job.status = true)
    (hchg : s'.job.status ≠ s.job.status) :
    s.job.status = .cancelled ∧ s.phase = .active ∧
      (s'.job.status = .done ∨ s'.job.status = .error) := by
  have hok := statusOk_of_reachable (statusOk_init id pid ty params t) hr
  obtain ⟨hp, hk, ha, hf⟩ := hok
  cases hstep with
  | apiCancel now h => rw [h] at hterm; cases hterm
  | pickupSkip hph hst => exact absurd rfl hchg
  | pickupNoHandler now hhh hph hst =>
    rcases hp hph with hq | hc
    · rw [hq] at hterm; simp [isTerminal] at hterm
    · exact absurd hc hst
  | pickupRun now w hhh hph hst =>
    rcases hp hph with hq | hc
    · rw [hq] at hterm; simp [isTerminal] at hterm
    · exact absurd hc hst
  | progressOk now stage pct hph hst =>
    rcases ha hph with hrun | hc
    · rw [hrun] at hterm; simp [isTerminal] at hterm
    · exact absurd hc hst
  | finishOk now res hph =>
    rcases ha hph with hrun | hc
    · rw [hrun] at hterm; simp [isTerminal] at hterm
    · exact ⟨hc, hph, Or.inl (by simp [applyUpdate])⟩
  | finishErr now msg hph =>
    rcases ha hph with hrun | hc
    · rw [hrun] at hterm; simp [isTerminal] at hterm
    · exact ⟨hc, hph, Or.inr (by simp [applyUpdate])⟩

/-- C1 amended witness: the concrete mid-run-cancellation trace instantiates
the amended statement. -/
theorem terminal_stable_except_midrun_finalize_witness :
    traceSys₂.job.status = .cancelled ∧ traceSys₂.phase = .active ∧
      (traceSys₃.job.status = .done ∨ traceSys₃.job.status = .error) :=
  terminal_stable_except_midrun_finalize true "job-1" "proj-1" "image_generate"
    "x" 0 traceSys₂ traceSys₃
    (Relation.ReflTransGen.tail
      (Relation.ReflTransGen.tail Relation.ReflTransGen.refl
        (Step.pickupRun traceSys₀ 1 0 rfl rfl (by decide)))
      (Step.apiCancel traceSys₁ 2 (by decide)))
    (Step.finishOk traceSys₂ 3 "r" rfl)
    (by decide) (by decide)

/-- C6: a job whose stored status is cancelled when a worker dequeues it is
frozen — every subsequent step leaves the record bit-for-bit unchanged and
its status never becomes running; and any step that sets the stored status
to running starts from a stored status of queued. -/
theorem cancelled_before_pickup_skipped (hh : Bool) (id pid ty params : String)
    (t : Nat) (s : Sys) (hr : Reachable hh (initSys id pid ty params t) s) :
    (s.phase = .pending → s.job.status = .cancelled →
      ∀ s', Relation.ReflTransGen (Step hh) s s' →
        s'.job = s.job ∧ s'.job.status ≠ .running) ∧
    (∀ s', Step hh s s' → s'.job.status = .running →
      s.job.status ≠ .running → s.job.status = .queued) := by
  have hok := statusOk_of_reachable (statusOk_init id pid ty params t) hr
  obtain ⟨hp, hk, ha, hf⟩ := hok
  constructor
  · intro hph hst s' hr'
    have hjob := cancelled_frozen (Or.inl hph) hst hr'
    refine ⟨hjob, ?_⟩
    rw [hjob, hst]
    simp
  · intro s' hstep hrun hnrun
    cases hstep with
    | apiCancel now h => simp [applyUpdate] at hrun
    | pickupSkip hph hst => exact absurd hrun hnrun
    | pickupNoHandler now hhh hph hst => simp [applyUpdate] at hrun
    | pickupRun now w hhh hph hst =>
      rcases hp hph with hq | hc
      · exact hq
      · exact absurd hc hst
    | progressOk now stage pct hph hst =>
      exact absurd (by simpa [applyUpdate] using hrun) hnrun
    | finishOk now res hph => simp [applyUpdate] at hrun
    | finishErr now msg hph => simp [applyUpdate] at hrun

/-! Concrete trace for the C6 witness: cancellation before pickup, then the
worker dequeues and skips. -/

def skipSys₀ : Sys := initSys "job-2" "proj-1" "image_generate" "x" 0

def skipSys₁ : Sys :=
  ⟨applyUpdate skipSys₀.job 1 (some .cancelled) none (some "cancelled")
    none none, .pending⟩

/-- C6 witness: a job cancelled while still queued, dequeued afterwards, is
left unchanged and is not running. -/
theorem cancelled_before_pickup_skipped_witness :
    (⟨skipSys₁.job, Phase.skipped⟩ : Sys).job = skipSys₁.job ∧
    (⟨skipSys₁.job, Phase.skipped⟩ : Sys).job.status ≠ .running :=
  (cancelled_before_pickup_skipped true "job-2" "proj-1" "image_generate" "x" 0
    skipSys₁
    (Relation.ReflTransGen.single (Step.apiCancel skipSys₀ 1 (by decide)))).1
    rfl (by decide) ⟨skipSys₁.job, .skipped⟩
    (Relation.ReflTransGen.single (Step.pickupSkip skipSys₁ rfl (by decide)))

/-- With no registered handler, no reachable state is active or running. -/
theorem noHandler_never_running {s₀ s : Sys}
    (h0 : s₀.phase ≠ .active ∧ s₀.job.status ≠ .running)
    (hr : Reachable false s₀ s) :
    s.phase ≠ .active ∧ s.job.status ≠ .running := by
  induction hr with
  | refl => exact h0
  | tail _ hstep ih =>
    obtain ⟨hph, hst⟩ := ih
    cases hstep with
    | apiCancel now h => exact ⟨hph, by simp [applyUpdate]⟩
    | pickupSkip h1 h2 => exact ⟨by simp, hst⟩
    | pickupNoHandler now hhh h1 h2 => exact ⟨by simp, by simp [applyUpdate]⟩
    | pickupRun now w hhh h1 h2 => cases hhh
    | progressOk now stage pct h1 h2 => exact absurd h1 hph
    | finishOk now res h1 => exact absurd h1 hph
    | finishErr now msg h1 => exact absurd h1 hph

/-- C7: with no handler registered for the job's type, the job's status is
never running in any reachable state, and the dequeue of such a job goes in
one step from pending to finished with status=error, stage "error",
progress 100 and an error text naming the unregistered type. -/
theorem no_handler_dispatch (id pid ty params : String) (t : Nat) (s s' : Sys)
    (hr : Reachable false (initSys id pid ty params t) s) :
    s.job.status ≠ .running ∧
    (Step false s s' → s.phase = .pending → s'.phase = .finished →
      s'.job.status = .error ∧
      s'.job.error_text = some (noHandlerText s.job.type) ∧
      s'.job.stage = "error" ∧ s'.job.progress_pct = 100) := by
  refine ⟨(noHandler_never_running (by simp [initSys, initJob]) hr).2, ?_⟩
  intro hstep hpend hfin
  cases hstep with
  | apiCancel now h => rw [hpend] at hfin; cases hfin
  | pickupSkip h1 h2 => cases hfin
  | pickupNoHandler now hhh h1 h2 =>
    refine ⟨by simp [applyUpdate], by simp [applyUpdate], by simp [applyUpdate],
      by simp [applyUpdate, clampPct]⟩
  | pickupRun now w hhh h1 h2 => cases hhh
  | progressOk now stage pct h1 h2 => rw [hpend] at h1; cases h1
  | finishOk now res h1 => rw [hpend] at h1; cases h1
  | finishErr now msg h1 => rw [hpend] at h1; cases h1

def c7Sys₀ : Sys := initSys "job-3" "proj-1" "mystery" "x" 0

def c7Sys₁ : Sys :=
  ⟨applyUpdate c7Sys₀.job 1 (some .error) (some 100) (some "error") none
    (some (noHandlerText c7Sys₀.job.type)), .finished⟩

/-- C7 witness: dispatching the unregistered type "mystery". -/
theorem no_handler_dispatch_witness :
    c7Sys₀.job.status ≠ .running ∧
    (c7Sys₁.job.status = .error ∧
      c7Sys₁.job.error_text = some (noHandlerText c7Sys₀.job.type) ∧
      c7Sys₁.job.stage = "error" ∧ c7Sys₁.job.progress_pct = 100) := by
  have H := no_handler_dispatch "job-3" "proj-1" "mystery" "x" 0 c7Sys₀ c7Sys₁
    Relation.ReflTransGen.refl
  exact ⟨H.1, H.2 (Step.pickupNoHandler c7Sys₀ 1 rfl rfl (by decide)) rfl rfl⟩

/-! ## Helper lemmas for the retry ladder -/

theorem run_attempts_head_err_abort (device : String)
    (attempt : Nat → Nat → Nat → AttemptResult) (w h s idx : Nat)
    (sawOom : Bool) (rest : List (Nat × Nat × Nat)) (msg : String)
    (ha : attempt w h s = .err msg)
    (hno : (device == "cuda" && is_oom_error msg) = false) :
    run_attempts device attempt ((w, h, s) :: rest) idx sawOom = .error msg := by
  simp [run_attempts, ha, hno]

theorem run_attempts_head_oom_descend (device : String)
    (attempt : Nat → Nat → Nat → AttemptResult) (w h s idx : Nat)
    (sawOom : Bool) (r : Nat × Nat × Nat) (rest : List (Nat × Nat × Nat))
    (msg : String) (ha : attempt w h s = .err msg)
    (hyes : (device == "cuda" && is_oom_error msg) = true) :
    run_attempts device attempt ((w, h, s) :: r :: rest) idx sawOom
      = run_attempts device attempt (r :: rest) (idx + 1) true := by
  simp [run_attempts, ha, hyes]

theorem run_attempts_last_err (device : String)
    (attempt : Nat → Nat → Nat → AttemptResult) (w h s idx : Nat)
    (sawOom : Bool) (msg : String) (ha : attempt w h s = .err msg) :
    run_attempts device attempt [(w, h, s)] idx sawOom = .error msg := by
  rcases Bool.eq_false_or_eq_true (device == "cuda" && is_oom_error msg)
    with hc | hc <;> simp [run_attempts, ha, hc]

/-- C4: a failure at rung 0 whose description is not classified as memory
exhaustion aborts the ladder at once with exactly that description, whatever
the device and whatever the later rungs would have done; and when all three
rungs fail (the first two classified as memory exhaustion on cuda, so that
the ladder descends), the last failure's description is the surfaced
error. -/
theorem ladder_aborts_on_non_memory_failure :
    (∀ (device : String) (attempt : Nat → Nat → Nat → AttemptResult)
       (w h s : Nat) (msg : String),
      attempt w h s = .err msg → is_oom_error msg = false →
      try_generate device attempt w h s = .error msg) ∧
    (∀ (attempt : Nat → Nat → Nat → AttemptResult) (w h s : Nat)
       (m₀ m₁ m₂ : String),
      attempt w h s = .err m₀ → is_oom_error m₀ = true →
      attempt (round_to_64 (max 512 (w * 4 / 5)))
        (round_to_64 (max 512 (h * 4 / 5))) s = .err m₁ →
      is_oom_error m₁ = true →
      attempt (round_to_64 (max 512 (w * 4 / 5)))
        (round_to_64 (max 512 (h * 4 / 5))) (max 1 (s * 7 / 10)) = .err m₂ →
      try_generate "cuda" attempt w h s = .error m₂) := by
  constructor
  · intro device attempt w h s msg ha hoom
    have hno : (device == "cuda" && is_oom_error msg) = false := by
      simp [hoom]
    simpa only [try_generate, attempt_plan] using
      run_attempts_head_err_abort device attempt w h s 0 false _ msg ha hno
  · intro attempt w h s m₀ m₁ m₂ ha₀ ho₀ ha₁ ho₁ ha₂
    show run_attempts "cuda" attempt (attempt_plan w h s) 0 false = .error m₂
    simp only [attempt_plan]
    rw [run_attempts_head_oom_descend "cuda" attempt w h s 0 false _ _ m₀ ha₀
      (by simp [ho₀])]
    rw [run_attempts_head_oom_descend "cuda" attempt _ _ s 1 true _ _ m₁ ha₁
      (by simp [ho₁])]
    exact run_attempts_last_err "cuda" attempt _ _ _ 2 true m₂ ha₂

/-- C4 witness: a non-memory failure "boom" at rung 0 aborts at once, and
three failing rungs on cuda (memory exhaustion twice, then "fatal") surface
"fatal". -/
theorem ladder_aborts_on_non_memory_failure_witness :
    (try_generate "cuda" (fun _ _ _ => .err "boom") 1024 1024 30
      = .error "boom") ∧
    (try_generate "cuda"
        (fun _ _ st => if st = 21 then .err "fatal"
          else .err "cuda out of memory") 1024 1024 30
      = .error "fatal") :=
  ⟨ladder_aborts_on_non_memory_failure.1 "cuda" (fun _ _ _ => .err "boom")
      1024 1024 30 "boom" rfl (by decide),
   ladder_aborts_on_non_memory_failure.2
      (fun _ _ st => if st = 21 then .err "fatal" else .err "cuda out of memory")
      1024 1024 30 "cuda out of memory" "cuda out of memory" "fatal"
      rfl (by decide) rfl (by decide) rfl⟩

/-- C10: the ladder descends past a failing rung only when the device is
"cuda" and the failure description matches a memory-exhaustion phrase: on
any rung, a failure without that conjunction is returned immediately; in
particular on device "cpu" any rung-0 failure — including one whose
description is the matched phrase "CUDA out of memory" — aborts the whole
ladder with that description. -/
theorem ladder_descends_only_on_cuda :
    (∀ (device : String) (attempt : Nat → Nat → Nat → AttemptResult)
       (w h s idx : Nat) (sawOom : Bool) (rest : List (Nat × Nat × Nat))
       (msg : String),
      attempt w h s = .err msg →
      ¬(device = "cuda" ∧ is_oom_error msg = true) →
      run_attempts device attempt ((w, h, s) :: rest) idx sawOom
        = .error msg) ∧
    (∀ (attempt : Nat → Nat → Nat → AttemptResult) (w h s : Nat)
       (msg : String),
      attempt w h s = .err msg →
      try_generate "cpu" attempt w h s = .error msg) ∧
    is_oom_error "CUDA out of memory" = true := by
  have habort : ∀ (device : String) (attempt : Nat → Nat → Nat → AttemptResult)
      (w h s idx : Nat) (sawOom : Bool) (rest : List (Nat × Nat × Nat))
      (msg : String),
      attempt w h s = .err msg →
      ¬(device = "cuda" ∧ is_oom_error msg = true) →
      run_attempts device attempt ((w, h, s) :: rest) idx sawOom
        = .error msg := by
    intro device attempt w h s idx sawOom rest msg ha hnot
    have hno : (device == "cuda" && is_oom_error msg) = false := by
      by_cases hd : device = "cuda"
      · have : is_oom_error msg = false := by
          rcases Bool.eq_false_or_eq_true (is_oom_error msg) with h | h
          · exact absurd ⟨hd, h⟩ hnot
          · exact h
        simp [this]
      · simp [beq_iff_eq, hd]
    exact run_attempts_head_err_abort device attempt w h s idx sawOom rest msg
      ha hno
  refine ⟨habort, ?_, by decide⟩
  intro attempt w h s msg ha
  simpa only [try_generate, attempt_plan] using
    habort "cpu" attempt w h s 0 false _ msg ha (by simp)

/-- C10 witness: on cpu, a rung-0 failure with the memory-exhaustion phrase
"CUDA out of memory" still aborts the whole ladder with that description,
and the phrase really is classified as memory exhaustion. -/
theorem ladder_descends_only_on_cuda_witness :
    (run_attempts "cpu" (fun _ _ _ => .err "CUDA out of memory")
        [(1024, 1024, 30), (768, 768, 30)] 0 false
      = .error "CUDA out of memory") ∧
    (try_generate "cpu" (fun _ _ _ => .err "CUDA out of memory") 1024 1024 30
      = .error "CUDA out of memory") ∧
    is_oom_error "CUDA out of memory" = true :=
  ⟨ladder_descends_only_on_cuda.1 "cpu" (fun _ _ _ => .err "CUDA out of memory")
      1024 1024 30 0 false [(768, 768, 30)] "CUDA out of memory" rfl
      (by simp),
   ladder_descends_only_on_cuda.2.1 (fun _ _ _ => .err "CUDA out of memory")
      1024 1024 30 "CUDA out of memory" rfl,
   ladder_descends_only_on_cuda.2.2⟩

end Clipper








